import Mathlib

/-!
Verification of the ESP32-S3 lab-room air-condition controller firmware
(`src/firmware/sic_final_firmware/sic_final_firmware.ino`) against its
natural-language specification.

The firmware's float arithmetic is modelled exactly over the rationals;
a float value is either NaN or a rational (`RFloat`).  The FreeRTOS mutex
`xSemaphoreTake` with its 100 ms bounded timeout is modelled by a boolean
`lockOk` parameter: `true` means the semaphore was acquired within the
timeout, `false` means the take timed out.  Hardware PWM writes
(`ledcWrite(pin, duty)`) are recorded as an explicit event list.
-/

namespace SICFirmware

/-- Model of an IEEE float value as used by the firmware: either NaN or an
exact rational.  `isnan` from `<math.h>` becomes the `isnan` discriminator. -/
inductive RFloat where
  | nan : RFloat
  | val : ℚ → RFloat
deriving DecidableEq

/-- The `isnan(x)` test of the firmware. -/
def RFloat.isnan : RFloat → Bool
  | .nan => true
  | .val _ => false

/-- Arduino `round(x)`: round half away from zero (for the nonnegative values
the firmware rounds, this is `⌊x + 1/2⌋`). -/
def roundA (q : ℚ) : ℤ :=
  if 0 ≤ q then ⌊q + 1/2⌋ else ⌈q - 1/2⌉

/-- The C cast `(int)x`: truncation toward zero. -/
def truncZ (q : ℚ) : ℤ :=
  if 0 ≤ q then ⌊q⌋ else ⌈q⌉

/-- Arduino `constrain(amt, low, high)` macro:
`((amt)<(low)?(low):((amt)>(high)?(high):(amt)))`. -/
def constrain (amt low high : ℚ) : ℚ :=
  if amt < low then low else if amt > high then high else amt

/-- Pin of actuator B (`"ac"`/`"intake"`), `const int AC_FAN_PIN = 1`. -/
def AC_FAN_PIN : ℕ := 1

/-- Pin of actuator A (`"exhaust"`), `const int EXHAUST_FAN_PIN = 2`. -/
def EXHAUST_FAN_PIN : ℕ := 2

/-- The shared `struct SensorData` guarded by `sensorDataMutex`.
The spec's names map as: `temperatureC` = `temperature`, `humidityPct` =
`humidity`, `currentMilliamps` = `current_mA`, `fanSetpointA` (actuator A,
"exhaust") = `exhaustFanPWM`, `fanSetpointB` (actuator B, "ac"/"intake") =
`acFanPWM`, `lastSampleTimestamp` = `timestamp`. -/
structure SensorData where
  temperature : RFloat
  humidity : RFloat
  current_mA : RFloat
  acFanPWM : ℚ
  exhaustFanPWM : ℚ
  timestamp : ℕ
deriving DecidableEq

/-- `SensorData currentData = {0, 0, 0, 0, 0, 0}` — the startup value of the
shared state. -/
def currentData : SensorData :=
  { temperature := .val 0, humidity := .val 0, current_mA := .val 0,
    acFanPWM := 0, exhaustFanPWM := 0, timestamp := 0 }

/-- One acquisition cycle's inputs: the three sensor reads
(`dht.readTemperature()`, `dht.readHumidity()`, `ina219.getCurrent_mA()`),
whether `xSemaphoreTake(sensorDataMutex, 100ms)` succeeded, and the value
`millis()` returns in this cycle. -/
structure CycleInput where
  temp : RFloat
  hum : RFloat
  current : RFloat
  lockOk : Bool
  now : ℕ
deriving DecidableEq

/-- The body of one iteration of `sensorTask`'s `while (true)` loop
(lines 167–197): under the mutex, write `temperature` and `humidity` only when
`!isnan(temp) && !isnan(hum)`, then write `current_mA` and `timestamp`
unconditionally; when the mutex take times out the whole update is skipped. -/
def sensorCycle (st : SensorData) (i : CycleInput) : SensorData :=
  if i.lockOk then
    let st1 :=
      if ¬ i.temp.isnan ∧ ¬ i.hum.isnan then
        { st with temperature := i.temp, humidity := i.hum }
      else st
    { st1 with current_mA := i.current, timestamp := i.now }
  else st

/-- A decoded `ArduinoJson` value, as far as the firmware inspects one:
null, string, number, or object (an association list of fields).  An absent
key behaves like null. -/
inductive JVal where
  | jnull : JVal
  | jstr : String → JVal
  | jnum : ℚ → JVal
  | jobj : List (String × JVal) → JVal

/-- `doc["key"]` on a `JsonDocument`: look the key up in an object; any
other shape (or a missing key) yields the null variant. -/
def jsonLookup : JVal → String → Option JVal
  | .jobj fields, k => fields.lookup k
  | _, _ => none

/-- Reading a JSON variant as `const char*` (e.g. `const char* cmdType =
doc["type"]`): a string yields that string, anything else (missing key, null,
number, object) yields the null pointer, modelled as `none`. -/
def jsonAsStr : Option JVal → Option String
  | some (.jstr s) => some s
  | _ => none

/-- Reading a JSON variant as `float` (`float value = doc["val"]`): a number
yields its value, anything else yields ArduinoJson's default `0.0`.
(ArduinoJson can also parse numeric strings; no claim exercises that path, so
string payloads also take the default here.) -/
def jsonAsFloat : Option JVal → ℚ
  | some (.jnum q) => q
  | _ => 0

/-- Undefined behaviour the firmware can run into: `strcmp` applied to the
null pointer that ArduinoJson returns for a missing/non-string key.  On the
ESP32 this dereferences address 0 and crashes (LoadProhibited panic). -/
inductive CrashErr where
  | strcmpNullType : CrashErr
  | strcmpNullTarget : CrashErr
deriving DecidableEq

/-- A hardware PWM write `ledcWrite(pin, duty)`. -/
abbrev FanWrite := ℕ × ℤ

/-- `setFanPWM(target, percentage)` (lines 346–369): clamp the percentage with
`constrain(percentage, 0, 100)`, compute `int pwmValue = (int)(percentage *
255.0 / 100.0)`, then — only if the mutex take succeeds — dispatch on the
target string: `"exhaust"` writes `exhaustFanPWM` and pin `EXHAUST_FAN_PIN`;
`"ac"` or `"intake"` writes `acFanPWM` and pin `AC_FAN_PIN`; any other string
falls through both branches (no write).  A null `target` pointer reaches
`strcmp(target, "exhaust")`, which crashes.  Returns the new state and the
list of `ledcWrite` events. -/
def setFanPWM (lockOk : Bool) (target : Option String) (percentage : ℚ)
    (st : SensorData) : Except CrashErr (SensorData × List FanWrite) :=
  let p := constrain percentage 0 100
  let pwmValue := truncZ (p * 255 / 100)
  if lockOk then
    match target with
    | none => .error .strcmpNullTarget
    | some t =>
      if t = "exhaust" then
        .ok ({ st with exhaustFanPWM := p }, [(EXHAUST_FAN_PIN, pwmValue)])
      else if t = "ac" ∨ t = "intake" then
        .ok ({ st with acFanPWM := p }, [(AC_FAN_PIN, pwmValue)])
      else
        .ok (st, [])
  else .ok (st, [])

/-- `handleCommand(doc)` (lines 325–340): read `doc["type"]`, `doc["target"]`
as `const char*` and `doc["val"]` as `float`, then test
`strcmp(cmdType, "SET_FAN")`.  A missing/non-string `type` makes `cmdType` the
null pointer and the `strcmp` crashes; when the type is `"SET_FAN"` the
command is forwarded to `setFanPWM`; any other type string is ignored. -/
def handleCommand (lockOk : Bool) (doc : JVal) (st : SensorData) :
    Except CrashErr (SensorData × List FanWrite) :=
  let cmdType := jsonAsStr (jsonLookup doc "type")
  let target := jsonAsStr (jsonLookup doc "target")
  let value := jsonAsFloat (jsonLookup doc "val")
  match cmdType with
  | none => .error .strcmpNullType
  | some t =>
    if t = "SET_FAN" then setFanPWM lockOk target value st
    else .ok (st, [])

/-- `mqttCallback` (lines 305–319): deserialize the payload; on a JSON parse
error (`payload = none`) log and return with no further action; otherwise
dispatch to `handleCommand`. -/
def mqttCallback (lockOk : Bool) (payload : Option JVal) (st : SensorData) :
    Except CrashErr (SensorData × List FanWrite) :=
  match payload with
  | none => .ok (st, [])
  | some doc => handleCommand lockOk doc st

/-- Rounding of a possibly-NaN float field to one decimal:
`round(x * 10) / 10.0` (NaN propagates). -/
def round1 : RFloat → RFloat
  | .nan => .nan
  | .val q => .val ((roundA (q * 10) : ℚ) / 10)

/-- The current conversion `round(current_mA / 100.0) / 10.0` (NaN
propagates). -/
def ampsConv : RFloat → RFloat
  | .nan => .nan
  | .val q => .val ((roundA (q / 100) : ℚ) / 10)

/-- The JSON telemetry message built by `mqttTask` (lines 275–282), with
exactly the keys `ts, temp, hum, fan_in, fan_ex, amps, door`. -/
structure TelemetryMessage where
  ts : ℕ
  temp : RFloat
  hum : RFloat
  fan_in : ℚ
  fan_ex : ℚ
  amps : RFloat
  door : ℕ
deriving DecidableEq

/-- The telemetry encoding of a `SensorData` snapshot (lines 276–282):
`ts = timestamp / 1000` (integer division), `temp`/`hum` rounded to one
decimal, `fan_in = round(acFanPWM*10)/10`, `fan_ex = round(exhaustFanPWM*10)/10`,
`amps = round(current_mA/100)/10`, `door = 0`. -/
def mqttEncode (d : SensorData) : TelemetryMessage :=
  { ts := d.timestamp / 1000
    temp := round1 d.temperature
    hum := round1 d.humidity
    fan_in := (roundA (d.acFanPWM * 10) : ℚ) / 10
    fan_ex := (roundA (d.exhaustFanPWM * 10) : ℚ) / 10
    amps := ampsConv d.current_mA
    door := 0 }

/-- One publish cycle of `mqttTask` (lines 268–293): if the mutex take
succeeds, snapshot the shared state, encode and publish it; if the take times
out the whole publish block is skipped (`none`). -/
def mqttPublishCycle (lockOk : Bool) (st : SensorData) :
    Option TelemetryMessage :=
  if lockOk then some (mqttEncode st) else none

/-!  Claim theorems. -/

/-- The SharedTelemetryState snapshot of the round-trip property:
`temperatureC = 23.46`, `humidityPct = 55.03`, `fanSetpointA = 40`
(= `exhaustFanPWM`), `fanSetpointB = 0` (= `acFanPWM`),
`currentMilliamps = 123`; the timestamp (not mentioned by the claim) is 0. -/
def snapC1 : SensorData :=
  { temperature := .val (2346/100), humidity := .val (5503/100),
    current_mA := .val 123, acFanPWM := 0, exhaustFanPWM := 40,
    timestamp := 0 }

/-- C1 (counterexample): the claim says encoding `snapC1` yields exactly
`{temp:23.5, hum:55.0, fan_ex:40.0, fan_in:0.0, amps:1.2, door:0}`, but the
defined rule gives `amps = round(123/100)/10 = round(1.23)/10 = 1/10 = 0.1`,
not `1.2`; the encoder's output differs from the claimed message. -/
theorem C1_counterexample :
    mqttEncode snapC1 ≠
      { ts := 0, temp := .val (235/10), hum := .val 55, fan_in := 0,
        fan_ex := 40, amps := .val (12/10), door := 0 } := by
  simp only [mqttEncode, snapC1, round1, ampsConv, ne_eq,
    TelemetryMessage.mk.injEq, not_and]
  intro _ _ _ _ _
  norm_num [roundA]

/-- C1 (amended): encoding the snapshot
`{temperatureC:23.46, humidityPct:55.03, fanSetpointA:40.0, fanSetpointB:0.0,
currentMilliamps:123.0}` yields exactly
`{temp:23.5, hum:55.0, fan_ex:40.0, fan_in:0.0, amps:0.1, door:0}`:
the double-rounding rule gives `round(123/100)/10 = 0.1` for `amps`. -/
theorem C1_encode_snapshot :
    mqttEncode snapC1 =
      { ts := 0, temp := .val (235/10), hum := .val 55, fan_in := 0,
        fan_ex := 40, amps := .val (1/10), door := 0 } := by
  simp only [mqttEncode, snapC1, round1, ampsConv, TelemetryMessage.mk.injEq]
  norm_num [roundA]

/-- The decoded command payload
`{id:"c1", type:"SET_FAN", target:"exhaust", val:60}` (the entity field
`value` travels under the wire key `val`). -/
def docC2 : JVal :=
  .jobj [("id", .jstr "c1"), ("type", .jstr "SET_FAN"),
         ("target", .jstr "exhaust"), ("val", .jnum 60)]

/-- The same command with the unknown target `"bogus"`. -/
def docC2bogus : JVal :=
  .jobj [("id", .jstr "c1"), ("type", .jstr "SET_FAN"),
         ("target", .jstr "bogus"), ("val", .jnum 60)]

/-- C2: applying `{id:"c1", type:"SET_FAN", target:"exhaust", value:60}` sets
`fanSetpointA` (= `exhaustFanPWM`) to 60 and performs exactly one actuator
write — `ledcWrite(EXHAUST_FAN_PIN, 153)`, the duty of a `setFan(A, 60)` call
(153 = (int)(60·255/100)); the same command with target `"bogus"` mutates no
field, performs no actuator write, and raises no error (`.ok`). -/
theorem C2_set_fan_exhaust_and_bogus (st : SensorData) :
    handleCommand true docC2 st =
      .ok ({ st with exhaustFanPWM := 60 }, [(EXHAUST_FAN_PIN, 153)]) ∧
    handleCommand true docC2bogus st = .ok (st, []) := by
  constructor <;>
    simp [handleCommand, docC2, docC2bogus, jsonLookup, List.lookup,
      jsonAsStr, jsonAsFloat, setFanPWM]
  norm_num [constrain, truncZ, EXHAUST_FAN_PIN]

lemma constrain_nonneg (p : ℚ) : 0 ≤ constrain p 0 100 := by
  unfold constrain
  split
  · exact le_refl 0
  · split
    · norm_num
    · linarith [not_lt.mp (by assumption : ¬ p < 0)]

lemma truncZ_eq_floor {q : ℚ} (h : 0 ≤ q) : truncZ q = ⌊q⌋ := by
  simp [truncZ, h]

/-- C3 (counterexample): the claim says the applied duty always equals
`round(clamp(p,0,100) * 255 / 100)`, but the code computes
`(int)(percentage * 255.0 / 100.0)`, a truncation.  At `p = 1` the code
writes duty `(int)(2.55) = 2` while `round(2.55) = 3`. -/
theorem C3_counterexample :
    setFanPWM true (some "exhaust") 1 currentData =
      .ok ({ currentData with exhaustFanPWM := 1 }, [(EXHAUST_FAN_PIN, 2)]) ∧
    roundA (constrain 1 0 100 * 255 / 100) = 3 := by
  constructor
  · simp [setFanPWM]
    norm_num [constrain, truncZ]
  · norm_num [constrain, roundA]

/-- C3 (amended): for every percentage input `p`, the duty cycle applied by
`setFanPWM` equals `⌊clamp(p,0,100) * 255 / 100⌋` — truncation toward zero,
not `round`; the setpoint field is set to the clamped percentage.  In
particular `p = 75` gives duty 191, `p = 150` is treated as 100 giving duty
255, and `p = -10` is treated as 0 giving duty 0. -/
theorem C3_duty_mapping (p : ℚ) (st : SensorData) :
    setFanPWM true (some "exhaust") p st =
      .ok ({ st with exhaustFanPWM := constrain p 0 100 },
           [(EXHAUST_FAN_PIN, ⌊constrain p 0 100 * 255 / 100⌋)]) ∧
    setFanPWM true (some "ac") p st =
      .ok ({ st with acFanPWM := constrain p 0 100 },
           [(AC_FAN_PIN, ⌊constrain p 0 100 * 255 / 100⌋)]) ∧
    setFanPWM true (some "exhaust") 75 st =
      .ok ({ st with exhaustFanPWM := 75 }, [(EXHAUST_FAN_PIN, 191)]) ∧
    setFanPWM true (some "exhaust") 150 st =
      .ok ({ st with exhaustFanPWM := 100 }, [(EXHAUST_FAN_PIN, 255)]) ∧
    setFanPWM true (some "exhaust") (-10) st =
      .ok ({ st with exhaustFanPWM := 0 }, [(EXHAUST_FAN_PIN, 0)]) := by
  have hfloor : truncZ (constrain p 0 100 * 255 / 100) =
      ⌊constrain p 0 100 * 255 / 100⌋ := by
    refine truncZ_eq_floor ?_
    have := constrain_nonneg p
    positivity
  refine ⟨?_, ?_, ?_, ?_, ?_⟩ <;>
    simp [setFanPWM, hfloor] <;>
    norm_num [constrain, truncZ]

/-- A command payload with the `type` key missing:
`{id:"c1", target:"exhaust", val:60}`. -/
def docC4missingType : JVal :=
  .jobj [("id", .jstr "c1"), ("target", .jstr "exhaust"), ("val", .jnum 60)]

/-- A command payload whose `val` is not numeric:
`{id:"c1", type:"SET_FAN", target:"exhaust", val:"sixty"}`. -/
def docC4strVal : JVal :=
  .jobj [("id", .jstr "c1"), ("type", .jstr "SET_FAN"),
         ("target", .jstr "exhaust"), ("val", .jstr "sixty")]

/-- C4 (code evaluated at the failing inputs): a payload with no `type` key
makes `const char* cmdType = doc["type"]` the null pointer, and
`strcmp(cmdType, "SET_FAN")` dereferences it — a crash, not a graceful
discard; a payload whose `val` is not numeric is NOT discarded: ArduinoJson
defaults the value to 0 and the command is applied (state mutated, one
actuator write).  Only a JSON parse failure is discarded as the claim
describes. -/
theorem C4_crash_and_default_eval :
    mqttCallback true (some docC4missingType) currentData =
      .error .strcmpNullType ∧
    mqttCallback true (some docC4strVal) currentData =
      .ok ({ currentData with exhaustFanPWM := 0 }, [(EXHAUST_FAN_PIN, 0)]) ∧
    mqttCallback true none currentData = .ok (currentData, []) := by
  refine ⟨?_, ?_, ?_⟩
  · simp [mqttCallback, handleCommand, docC4missingType, jsonLookup,
      List.lookup, jsonAsStr]
  · simp [mqttCallback, handleCommand, docC4strVal, jsonLookup, List.lookup,
      jsonAsStr, jsonAsFloat, setFanPWM]
    norm_num [constrain, truncZ, EXHAUST_FAN_PIN]
  · simp [mqttCallback]

/-- The invariant that the temperature and humidity fields hold finite (non
NaN) values. -/
def validTH (st : SensorData) : Prop :=
  st.temperature.isnan = false ∧ st.humidity.isnan = false

lemma sensorCycle_preserves_validTH (st : SensorData) (i : CycleInput)
    (h : validTH st) : validTH (sensorCycle st i) := by
  rcases h with ⟨ht, hh⟩
  unfold validTH sensorCycle
  by_cases hl : i.lockOk
  · by_cases hc : i.temp.isnan = false ∧ i.hum.isnan = false
    · simp [hl, hc.1, hc.2]
    · simp [hl, hc, ht, hh]
  · simp [hl, ht, hh]

lemma foldl_validTH (inputs : List CycleInput) (st : SensorData)
    (h : validTH st) : validTH (inputs.foldl sensorCycle st) := by
  induction inputs generalizing st with
  | nil => exact h
  | cons i rest ih => exact ih _ (sensorCycle_preserves_validTH st i h)

/-- C5: over any sequence of acquisition cycles starting from the all-zero
startup state, the temperature and humidity fields are never NaN; moreover in
any cycle in which either read is NaN, both fields are left exactly as they
were (in particular a failed read never resets them to zero). -/
theorem C5_nan_never_overwrites :
    (∀ inputs : List CycleInput,
      validTH (inputs.foldl sensorCycle currentData)) ∧
    (∀ (st : SensorData) (i : CycleInput),
      (i.temp.isnan = true ∨ i.hum.isnan = true) →
        (sensorCycle st i).temperature = st.temperature ∧
        (sensorCycle st i).humidity = st.humidity) := by
  constructor
  · intro inputs
    exact foldl_validTH inputs currentData
      (by simp [currentData, validTH, RFloat.isnan])
  · intro st i h
    unfold sensorCycle
    by_cases hl : i.lockOk
    · have hc : ¬ (i.temp.isnan = false ∧ i.hum.isnan = false) := by
        rcases h with h | h <;> simp [h]
      simp [hl, hc]
    · simp [hl]

/-- An acquisition cycle whose temperature read failed (NaN). -/
def iNanC5 : CycleInput :=
  { temp := .nan, hum := .val 50, current := .val 1, lockOk := true, now := 5 }

/-- C5 witness: the theorem applied to a concrete one-cycle sequence and to a
concrete NaN cycle from the concrete snapshot `snapC1`. -/
theorem C5_witness :
    validTH ([iNanC5].foldl sensorCycle currentData) ∧
    ((sensorCycle snapC1 iNanC5).temperature = snapC1.temperature ∧
     (sensorCycle snapC1 iNanC5).humidity = snapC1.humidity) :=
  ⟨C5_nan_never_overwrites.1 [iNanC5],
   C5_nan_never_overwrites.2 snapC1 iNanC5 (Or.inl rfl)⟩

/-- A state holding previously read values 20 °C and 50 %. -/
def stC6 : SensorData :=
  { currentData with temperature := .val 20, humidity := .val 50 }

/-- A cycle where the temperature read succeeds (25) but the humidity read
fails (NaN). -/
def iC6 : CycleInput :=
  { temp := .val 25, hum := .nan, current := .val 1, lockOk := true, now := 7 }

/-- A cycle where both reads succeed (25 and 60). -/
def iC6ok : CycleInput :=
  { temp := .val 25, hum := .val 60, current := .val 1, lockOk := true,
    now := 7 }

/-- C6 (counterexample): the claim says that when exactly one read fails the
other field is still updated; but in a cycle with a valid temperature read
(25) and a NaN humidity read, the code leaves the temperature at its old
value 20 — the guard `!isnan(temp) && !isnan(hum)` skips both writes. -/
theorem C6_counterexample :
    (sensorCycle stC6 iC6).temperature = RFloat.val 20 ∧
    RFloat.val (20 : ℚ) ≠ RFloat.val 25 := by
  constructor
  · simp [sensorCycle, stC6, iC6, RFloat.isnan, currentData]
  · simp

/-- C6 (amended): after a lock-acquiring acquisition cycle, the temperature
and humidity fields are updated together exactly when both reads succeed;
when either read fails, both fields retain their previous values — the
successfully read one is not stored. -/
theorem C6_both_or_neither (st : SensorData) (i : CycleInput) :
    ((i.temp.isnan = false ∧ i.hum.isnan = false) →
      (sensorCycle st { i with lockOk := true }).temperature = i.temp ∧
      (sensorCycle st { i with lockOk := true }).humidity = i.hum) ∧
    ((i.temp.isnan = true ∨ i.hum.isnan = true) →
      (sensorCycle st { i with lockOk := true }).temperature =
        st.temperature ∧
      (sensorCycle st { i with lockOk := true }).humidity = st.humidity) := by
  constructor
  · intro h
    simp [sensorCycle, h.1, h.2]
  · intro h
    have hc : ¬ (i.temp.isnan = false ∧ i.hum.isnan = false) := by
      rcases h with h | h <;> simp [h]
    simp [sensorCycle, hc]

/-- C6 witness: the amended theorem at the concrete cycles `iC6ok` (both
reads valid: both fields updated) and `iC6` (humidity NaN: both fields
kept). -/
theorem C6_witness :
    ((sensorCycle stC6 { iC6ok with lockOk := true }).temperature =
        iC6ok.temp ∧
     (sensorCycle stC6 { iC6ok with lockOk := true }).humidity = iC6ok.hum) ∧
    ((sensorCycle stC6 { iC6 with lockOk := true }).temperature =
        stC6.temperature ∧
     (sensorCycle stC6 { iC6 with lockOk := true }).humidity =
        stC6.humidity) :=
  ⟨(C6_both_or_neither stC6 iC6ok).1 ⟨rfl, rfl⟩,
   (C6_both_or_neither stC6 iC6).2 (Or.inr rfl)⟩

/-- C7: in every acquisition cycle that acquires the lock, `current_mA`
(= `currentMilliamps`) is overwritten with the new reading and `timestamp`
(= `lastSampleTimestamp`) with the cycle's `millis()` value, unconditionally
— whatever the temperature/humidity reads returned. -/
theorem C7_current_timestamp_unconditional (st : SensorData)
    (i : CycleInput) :
    (sensorCycle st { i with lockOk := true }).current_mA = i.current ∧
    (sensorCycle st { i with lockOk := true }).timestamp = i.now := by
  by_cases hc : ¬ i.temp.isnan ∧ ¬ i.hum.isnan <;> simp [sensorCycle, hc]

/-- C8: for every value and every lock outcome, a `SET_FAN` targeting `"ac"`
behaves identically to one targeting `"intake"`; on a successful lock both
update only `acFanPWM` (= `fanSetpointB`) and write actuator B's pin
(`AC_FAN_PIN`), leaving `exhaustFanPWM` (= `fanSetpointA`) untouched. -/
theorem C8_ac_intake_synonyms (lk : Bool) (v : ℚ) (st : SensorData) :
    setFanPWM lk (some "ac") v st = setFanPWM lk (some "intake") v st ∧
    setFanPWM true (some "ac") v st =
      .ok ({ st with acFanPWM := constrain v 0 100 },
           [(AC_FAN_PIN, truncZ (constrain v 0 100 * 255 / 100))]) := by
  constructor <;> simp [setFanPWM]

/-- C9: when the bounded mutex take times out, the acquisition cycle leaves
the shared state unchanged and the publish cycle publishes nothing; the
skipped cycle has no effect on the next cycle, which proceeds exactly as it
would have from the untouched state (no within-cycle retry is modelled —
the code's single `if` attempts the take once per cycle). -/
theorem C9_mutex_timeout_skips_cycle (st : SensorData) (i j : CycleInput) :
    sensorCycle st { i with lockOk := false } = st ∧
    mqttPublishCycle false st = none ∧
    sensorCycle (sensorCycle st { j with lockOk := false })
        { i with lockOk := true } =
      sensorCycle st { i with lockOk := true } := by
  refine ⟨?_, ?_, ?_⟩ <;> simp [sensorCycle, mqttPublishCycle]

/-- C10: if the mutex take inside `setFanPWM` times out, the command is
dropped atomically: the returned state is exactly the input state (neither
`acFanPWM` nor `exhaustFanPWM` modified) and the list of hardware duty-cycle
writes is empty — for every target and value. -/
theorem C10_setfan_timeout_atomic (target : Option String) (v : ℚ)
    (st : SensorData) :
    setFanPWM false target v st = .ok (st, []) := by
  simp [setFanPWM]

end SICFirmware
